import Mathlib

/-!
Verification development for the S-AI backend (subscription-gated AI chat
service).  The definitions below are shallow embeddings of the Python
source under `backend/`:

* `backend/models/ai_models.py` — tier model allow-lists and the model
  access gate (`validate_model_access`, `get_available_models`);
* `backend/models/supabase_state.py` — the entitlement resolver
  (`get_user_usage`) reconciling the user profile row, the subscriptions
  row and the usage row;
* `backend/web/chat.py` — the quota-enforcement section of the chat
  endpoint;
* `backend/services/supabase_database.py` and `backend/models/state.py`
  — the daily-reset logic of the two usage-store revisions.

Instants are modelled as integers (seconds since an epoch); a Python
`datetime` string is identified with its parse result (`none` when
`datetime.fromisoformat` would raise `ValueError`).  Database calls are
modelled as `Except Unit`-valued inputs (`.error` = the call raised),
the write-backs issued by the resolver (`db.update_user`) are returned
as an explicit list of issued calls, and the `await` of a synchronous
method — the defect that dominates the behavior of the resolver in
`supabase_state.py` — is modelled by `awaitSync`.
-/

namespace SAI

/-! ## Model allow-lists (`backend/models/ai_models.py`, lines 8-34) -/

def FREE_MODELS : List String :=
  [ "openai/gpt-oss-20b:free"
  , "tngtech/deepseek-r1t2-chimera:free"
  , "cognitivecomputations/dolphin-mistral-24b-venice-edition:free"
  , "meta-llama/llama-3.2-3b-instruct:free"
  , "meta-llama/llama-4-maverick:free"
  , "qwen/qwen3-30b-a3b:free"
  , "qwen/qwen3-235b-a22b:free" ]

def STARTER_MODELS : List String :=
  FREE_MODELS ++ [ "meta-llama/llama-3.3-70b-instruct:free" ]

def PRO_MODELS : List String :=
  STARTER_MODELS ++ [ "x-ai/grok-4-fast", "google/gemini-2.5-flash-image" ]

def PRO_PLUS_MODELS : List String :=
  PRO_MODELS ++ [ "anthropic/claude-3.5-sonnet", "openai/gpt-4-turbo" ]

/-- Python `str.lower()`, modelled as a per-character lowercase map. -/
def pyToLower (s : String) : String := String.mk (s.data.map Char.toLower)

/-- `tier.lower() if tier else "free"`: `None` and the empty string are
falsy in Python and normalize to `"free"`; any other string is
lowercased. -/
def normTier (tier : Option String) : String :=
  match tier with
  | none => "free"
  | some s => if s.isEmpty then "free" else pyToLower s

/-- The `tier_models` dict lookup with default `FREE_MODELS`
(`ai_models.py` lines 98-105). -/
def tierModels (t : String) : List String :=
  if t = "free" then FREE_MODELS
  else if t = "starter" then STARTER_MODELS
  else if t = "pro" then PRO_MODELS
  else if t = "pro_plus" then PRO_PLUS_MODELS
  else FREE_MODELS

/-- `validate_model_access(model_id, tier)` (`ai_models.py` lines 79-114):
membership of `model_id` in the allow-list of the tier after tier
normalization. -/
def validate_model_access (model_id : String) (tier : Option String) : Bool :=
  (tierModels (normTier tier)).contains model_id

/-- `get_available_models(tier)` (`ai_models.py` lines 116-135). -/
def get_available_models (tier : Option String) : List String :=
  tierModels (normTier tier)

/-- The tier ordering `free < starter < pro < pro_plus` used by the spec. -/
inductive Tier where
  | free | starter | pro | pro_plus
deriving DecidableEq, Repr

def Tier.rank : Tier → Nat
  | .free => 0
  | .starter => 1
  | .pro => 2
  | .pro_plus => 3

def Tier.name : Tier → String
  | .free => "free"
  | .starter => "starter"
  | .pro => "pro"
  | .pro_plus => "pro_plus"

def Tier.models : Tier → List String
  | .free => FREE_MODELS
  | .starter => STARTER_MODELS
  | .pro => PRO_MODELS
  | .pro_plus => PRO_PLUS_MODELS

/-! ## Instants and calendar dates -/

/-- An instant, as seconds relative to an epoch (`datetime` values;
the code normalizes naive timestamps to UTC-aware before comparing, an
operation that preserves the instant in this model). -/
abbrev Datetime := Int

/-- The calendar date of an instant (`datetime.date()`): floor division
by the number of seconds in a day. -/
def calDate (d : Datetime) : Int := d / 86400

/-- A date string, identified with its parse result: `none` models a
string on which `datetime.fromisoformat` raises `ValueError`. -/
abbrev DateStr := Option Datetime

/-! ## Quota enforcement (`backend/web/chat.py`, lines 143-188) -/

inductive QuotaCheck where
  | allowed
  | denied (statusCode : Nat) (detail : String)
deriving DecidableEq, Repr

/-- The usage-limit section of the chat endpoint (`chat.py` lines
143-188), as a pure function of the sanitized tier and the snapshot
counters.  `daily` is `usage.daily_message_count`, `monthly` is
`usage.prompt_count`; the `usage_percent` computations only drive log
warnings and do not affect the outcome.  A denial raises HTTP 402
(`PAYMENT_REQUIRED`). -/
def check_quota (tier : String) (daily monthly : Nat) : QuotaCheck :=
  if tier = "free" then
    if daily ≥ 50 then
      .denied 402 "Daily limit reached (50 requests/day). Upgrade to continue."
    else .allowed
  else if tier = "starter" then
    if monthly ≥ 500 then
      .denied 402 "Monthly limit reached (500 requests/month). Upgrade to Pro for 2000 requests."
    else .allowed
  else if tier = "pro" then
    if monthly ≥ 2000 then
      .denied 402 "Monthly limit reached (2000 requests/month). Upgrade to Pro Plus for unlimited."
    else .allowed
  else .allowed

/-- `FREE_TIER_DAILY_LIMIT` in `chat.py` line 146. -/
def FREE_TIER_DAILY_LIMIT : Nat := 50

/-! ## Daily reset (`backend/services/supabase_database.py`, lines 209-243) -/

/-- A `user_usage` row as the dict returned by the store; `Option`
fields model `dict.get` with its default. -/
structure SvcUsageRow where
  daily_message_count : Nat
  total_message_count : Nat
  daily_token_count : Nat
  total_token_count : Nat
  last_reset_date : Option DateStr
deriving DecidableEq, Repr

/-- The value written back on a daily reset (`update_data` in
`supabase_database.py` lines 229-233, applied to the dict by
`usage.update`). -/
def resetRow (row : SvcUsageRow) (now : Datetime) : SvcUsageRow :=
  { row with
    daily_message_count := 0
    daily_token_count := 0
    last_reset_date := some (some now) }

/-- The reset portion of `SupabaseService.get_user_usage`
(`supabase_database.py` lines 222-243): parse
`usage.get(last_reset_date, now-isoformat)` (keys elided), and zero
the daily counters exactly when the parsed calendar day precedes
the current calendar day; any exception is re-raised as an `HTTPException` (`.error`). -/
def svc_get_user_usage (row : SvcUsageRow) (now : Datetime) :
    Except Unit SvcUsageRow :=
  match row.last_reset_date.getD (some now) with
  | none => .error ()
  | some last_reset =>
    if calDate last_reset < calDate now then .ok (resetRow row now)
    else .ok row

/-! ## Daily reset, in-memory revision (`backend/models/state.py`, lines 12-35) -/

/-- The in-memory usage record of `models/state.py` (the fields its
reset logic touches). -/
structure MemUsage where
  daily_message_count : Nat
  prompt_count : Nat
  last_reset_date : Datetime
deriving DecidableEq, Repr

/-- `(last_reset_date + timedelta(days=1)).replace(hour=0, minute=0,
second=0, microsecond=0)`: midnight of the calendar day after the last
reset. -/
def nextResetInstant (last : Datetime) : Datetime :=
  86400 * calDate (last + 86400)

/-- The reset portion of `get_user_usage` in `models/state.py` (lines
26-35): zero the daily count and stamp `now` when `now` has reached the
midnight following the last reset. -/
def mem_get_user_usage (u : MemUsage) (now : Datetime) : MemUsage :=
  if nextResetInstant u.last_reset_date ≤ now then
    { u with daily_message_count := 0, last_reset_date := now }
  else u

/-! ## Entitlement resolver (`backend/models/supabase_state.py`, lines 16-137) -/

/-- A `users` row, as the dict consumed by the resolver (only the keys
it reads); `Option` models both a missing key and a `NULL` value. -/
structure UserRec where
  id : String
  auth0_id : String
  subscription_tier : Option String
  is_paid : Option Bool
  subscription_end_date : Option DateStr
deriving DecidableEq, Repr

/-- A `subscriptions` row.  The payment webhook stores a `tier` column
(`web/webhook.py` line 85); the resolver reads only `status` and
`current_end`. -/
structure SubRec where
  status : Option String
  tier : String
  current_end : Option DateStr
deriving DecidableEq, Repr

/-- The usage dict returned by `db.get_user_usage` as read at the
call site in the resolver (`supabase_state.py` lines 110-114). -/
structure UsageDict where
  total_message_count : Option Nat
  daily_message_count : Option Nat
  last_reset_date : Option DateStr
deriving DecidableEq, Repr

/-- A `db.update_user(auth0_id, {...})` call issued by the resolver; the
only update it issues is the demotion dict of lines 77-81. -/
structure UpdateCall where
  auth0_id : String
  subscription_tier : String
  is_paid : Bool
  subscription_end_date : Option DateStr
deriving DecidableEq, Repr

/-- The `UserUsage` pydantic model (`models/payment.py` lines 44-52),
restricted to the fields the resolver populates. -/
structure UserUsage where
  user_id : String
  prompt_count : Nat
  daily_message_count : Nat
  last_reset_date : Datetime
  is_paid : Bool
  subscription_tier : String
  subscription_end_date : Option Datetime
deriving DecidableEq, Repr

/-- The environment of one resolver call: the current instant and the
state each store lookup would deliver (`.error` models the lookup
itself raising).  The demotion write of line 77 is unreachable (see
`get_user_usage` below), so its outcome needs no field. -/
structure Env where
  now : Datetime
  getUser : Except Unit (Option UserRec)
  getUsage : Except Unit UsageDict
  getActiveSub : Except Unit (Option SubRec)
deriving Repr

/-- The default free-tier snapshot returned by the not-found branch
(lines 26-34) and by the top-level exception handler (lines 129-137). -/
def defaultUsage (uid : String) (now : Datetime) : UserUsage :=
  { user_id := uid
    prompt_count := 0
    daily_message_count := 0
    last_reset_date := now
    is_paid := false
    subscription_tier := "free"
    subscription_end_date := none }

/-- Python `await` applied to the return value of a synchronous method.
Every `db` method the resolver calls is a plain synchronous `def` on
`SupabaseService` (`services/supabase_database.py`: `get_user_by_auth0_id`
line 109, `get_user_usage` line 209, `get_active_subscription` line 305,
`update_user` line 164, each marked REMOVED async; the singleton `db`
at line 488 is what `supabase_state.py` imports).  So `await db.m(...)`
first runs the call — whose own exception, if any, propagates — and
otherwise raises `TypeError` on the returned non-awaitable value.
Either way an exception is raised and no value is ever produced, which
the `Empty` result type records. -/
def awaitSync {α : Type} (x : Except Unit α) : Except Unit Empty :=
  match x with
  | .error e => .error e
  | .ok _ => .error ()

/-- `get_user_usage(user_id)` (`supabase_state.py` lines 16-137),
returning the snapshot together with the list of `db.update_user`
calls issued during the run.  Line 22 is
`user = await db.get_user_by_auth0_id(user_id)`, an `await` of a
synchronous method: this first statement of the `try` block raises on
every call (`TypeError`, or the exception of the lookup itself), and
the top-level handler (lines 123-137) turns it into the default free
snapshot.  The rest of the body — the reconciliation of lines 24-121,
including the subscription check with its demotion write at line 77,
the local `ValueError` handler at lines 84-85, and the users-table
backup check of lines 89-106 (which, were it ever reached, would
itself crash at line 96: `timezone` is a function-local name bound
only by the branch-local import at line 62) — is unreachable dead
code, so in particular no `db.update_user` call is ever issued. -/
def get_user_usage (env : Env) (uid : String) : UserUsage × List UpdateCall :=
  match awaitSync env.getUser with
  | .error _ => (defaultUsage uid env.now, [])
  | .ok e => e.elim

/-! ## Concrete fixtures used by counterexamples and witnesses

Constructor argument orders: `UserRec.mk id auth0_id subscription_tier
is_paid subscription_end_date`; `SubRec.mk status tier current_end`;
`UsageDict.mk total_message_count daily_message_count last_reset_date`;
`Env.mk now getUser getUsage getActiveSub`. -/

/-- A zeroed usage dict with a well-formed last-reset date at instant 0. -/
def usageDictZero : UsageDict := UsageDict.mk (some 0) (some 0) (some (some 0))

/-- Fixture: user profile stores tier `starter`; the subscriptions table
has an active row with tier `pro` and `current_end` at instant 100,
while now is 0 (the subscription is current). -/
def envTieBreak : Env :=
  Env.mk 0
    (.ok (some (UserRec.mk "u1" "a1" (some "starter") (some false) none)))
    (.ok usageDictZero)
    (.ok (some (SubRec.mk (some "active") "pro" (some (some 100)))))

/-- Fixture: the user lookup raises (store unreachable). -/
def envStoreDown : Env :=
  Env.mk 0 (.error ()) (.ok usageDictZero) (.ok none)

/-- Fixture: an active subscription row expired at instant -5 (now = 0);
the profile does not claim `is_paid`. -/
def envExpiredPlain : Env :=
  Env.mk 0
    (.ok (some (UserRec.mk "u1" "a1" (some "pro") (some false) none)))
    (.ok usageDictZero)
    (.ok (some (SubRec.mk (some "active") "pro" (some (some (-5))))))

/-- Fixture: no subscriptions-table row; the profile says `is_paid` with
tier `pro` and an expiry at instant -100 (in the past; now = 0). -/
def envProfileExpired : Env :=
  Env.mk 0
    (.ok (some (UserRec.mk "u1" "a1" (some "pro") (some true) (some (some (-100))))))
    (.ok usageDictZero)
    (.ok none)

/-- Fixture: a usage row with nonzero counters whose last reset was at
instant 1000 (calendar day 0). -/
def svcRowA : SvcUsageRow := SvcUsageRow.mk 3 10 4 20 (some (some 1000))

/-- Fixture: an in-memory usage record last reset at instant 1000. -/
def memA : MemUsage := MemUsage.mk 3 10 1000

/-! # Helper lemmas -/

theorem tierModels_name (t : Tier) : tierModels t.name = t.models := by
  cases t <;> rfl

theorem normTier_name (t : Tier) : normTier (some t.name) = t.name := by
  cases t <;> decide

theorem validate_name (m : String) (t : Tier) :
    validate_model_access m (some t.name) = (t.models).contains m := by
  rw [validate_model_access, normTier_name, tierModels_name]

theorem models_mono_succ :
    (∀ m : String, m ∈ FREE_MODELS → m ∈ STARTER_MODELS) ∧
    (∀ m : String, m ∈ STARTER_MODELS → m ∈ PRO_MODELS) ∧
    (∀ m : String, m ∈ PRO_MODELS → m ∈ PRO_PLUS_MODELS) := by
  refine ⟨?_, ?_, ?_⟩ <;> intro m h <;>
    first
      | exact List.mem_append_left _ h

theorem models_mono (t1 t2 : Tier) (h : t1.rank ≤ t2.rank) :
    ∀ m : String, m ∈ t1.models → m ∈ t2.models := by
  intro m hm
  cases t1 <;> cases t2 <;> simp [Tier.rank] at h <;>
    simp only [Tier.models] at hm ⊢ <;>
    first
      | exact hm
      | exact models_mono_succ.1 m hm
      | exact models_mono_succ.2.1 m (models_mono_succ.1 m hm)
      | exact models_mono_succ.2.2 m (models_mono_succ.2.1 m (models_mono_succ.1 m hm))
      | exact models_mono_succ.2.1 m hm
      | exact models_mono_succ.2.2 m (models_mono_succ.2.1 m hm)
      | exact models_mono_succ.2.2 m hm

theorem contains_iff_mem (l : List String) (a : String) :
    l.contains a = true ↔ a ∈ l := List.elem_iff

theorem tierModels_cases (s : String) :
    tierModels s = FREE_MODELS ∨ tierModels s = STARTER_MODELS ∨
    tierModels s = PRO_MODELS ∨ tierModels s = PRO_PLUS_MODELS := by
  by_cases h1 : s = "free"
  · exact Or.inl (by simp [tierModels, h1])
  by_cases h2 : s = "starter"
  · exact Or.inr (Or.inl (by simp [tierModels, h1, h2]))
  by_cases h3 : s = "pro"
  · exact Or.inr (Or.inr (Or.inl (by simp [tierModels, h1, h2, h3])))
  by_cases h4 : s = "pro_plus"
  · exact Or.inr (Or.inr (Or.inr (by simp [tierModels, h1, h2, h3, h4])))
  · exact Or.inl (by simp [tierModels, h1, h2, h3, h4])

theorem svc_eq_of_missing (row : SvcUsageRow) (now : Datetime)
    (h : row.last_reset_date = none) :
    svc_get_user_usage row now = .ok row := by
  unfold svc_get_user_usage
  rw [h]
  show (if calDate now < calDate now then Except.ok (resetRow row now)
    else Except.ok row) = Except.ok row
  rw [if_neg (lt_irrefl _)]

theorem svc_eq_of_some (row : SvcUsageRow) (now last : Datetime)
    (h : row.last_reset_date = some (some last)) :
    svc_get_user_usage row now =
      if calDate last < calDate now then Except.ok (resetRow row now)
      else Except.ok row := by
  unfold svc_get_user_usage
  rw [h]
  rfl

theorem svc_eq_of_bad (row : SvcUsageRow) (now : Datetime)
    (h : row.last_reset_date = some none) :
    svc_get_user_usage row now = .error () := by
  unfold svc_get_user_usage
  rw [h]
  rfl

theorem nextReset_le_iff_int (last now : Int) :
    86400 * ((last + 86400) / 86400) ≤ now ↔ last / 86400 < now / 86400 := by
  omega

theorem nextReset_le_iff (last now : Datetime) :
    nextResetInstant last ≤ now ↔ calDate last < calDate now :=
  nextReset_le_iff_int last now

theorem tierModels_subset (s : String) (m : String) (h : m ∈ tierModels s) :
    m ∈ PRO_PLUS_MODELS := by
  rcases tierModels_cases s with hc | hc | hc | hc <;> rw [hc] at h
  · exact models_mono_succ.2.2 m (models_mono_succ.2.1 m (models_mono_succ.1 m h))
  · exact models_mono_succ.2.2 m (models_mono_succ.2.1 m h)
  · exact models_mono_succ.2.2 m h
  · exact h

theorem get_user_usage_default (env : Env) (uid : String) :
    get_user_usage env uid = (defaultUsage uid env.now, []) := by
  unfold get_user_usage awaitSync
  cases env.getUser <;> rfl

/-! # Claim theorems -/

/-- Claim C5, counterexample: the model id
`mistralai/mistral-large` is contained in no tier allow-list, yet
`validate_model_access` denies it for every tier — including `free` —
refuting the claim that an unlisted model is free-accessible-by-default. -/
theorem C5_counterexample :
    ("mistralai/mistral-large" ∉ FREE_MODELS ∧
     "mistralai/mistral-large" ∉ STARTER_MODELS ∧
     "mistralai/mistral-large" ∉ PRO_MODELS ∧
     "mistralai/mistral-large" ∉ PRO_PLUS_MODELS) ∧
    validate_model_access "mistralai/mistral-large" (some "free") = false ∧
    validate_model_access "mistralai/mistral-large" (some "starter") = false ∧
    validate_model_access "mistralai/mistral-large" (some "pro") = false ∧
    validate_model_access "mistralai/mistral-large" (some "pro_plus") = false := by
  decide

/-- Claim C5 as amended: a model id contained in no tier allow-list
(equivalently, not in `PRO_PLUS_MODELS`, the union of all lists) is
denied by `validate_model_access` for every tier argument whatsoever:
the gate fails closed on unlisted models; the `FREE_MODELS` fallback in
the lookup applies to unrecognized tier names, not to unlisted models. -/
theorem C5_unlisted_model_denied (m : String) (hm : m ∉ PRO_PLUS_MODELS) :
    ∀ tier : Option String, validate_model_access m tier = false := by
  intro tier
  have hnot : m ∉ tierModels (normTier tier) :=
    fun h => hm (tierModels_subset (normTier tier) m h)
  simp [validate_model_access, List.elem_iff, hnot]

/-- Witness for C5 as amended, at a concrete unlisted model and tier. -/
theorem C5_witness :
    validate_model_access "mistralai/mistral-large" (some "pro_plus") = false :=
  C5_unlisted_model_denied "mistralai/mistral-large" (by decide) (some "pro_plus")

/-- Claim C6: the model gate is monotone along the tier ordering
`free < starter < pro < pro_plus` — any model allowed at a lower tier is
allowed at every higher tier — and concretely `x-ai/grok-4-fast` is
denied at `starter` and allowed at `pro`. -/
theorem C6_model_gate_monotonicity :
    (∀ (m : String) (t1 t2 : Tier), t1.rank ≤ t2.rank →
      validate_model_access m (some t1.name) = true →
      validate_model_access m (some t2.name) = true) ∧
    validate_model_access "x-ai/grok-4-fast" (some "starter") = false ∧
    validate_model_access "x-ai/grok-4-fast" (some "pro") = true := by
  refine ⟨?_, by decide, by decide⟩
  intro m t1 t2 h hm
  rw [validate_name] at hm ⊢
  exact (contains_iff_mem _ m).2
    (models_mono t1 t2 h m ((contains_iff_mem _ m).1 hm))

/-- Witness for C6: the monotonicity conjunct applied at a concrete
free-tier model and the pair free ≤ pro_plus. -/
theorem C6_witness :
    validate_model_access "openai/gpt-oss-20b:free" (some "pro_plus") = true :=
  C6_model_gate_monotonicity.1 "openai/gpt-oss-20b:free" Tier.free Tier.pro_plus
    (by decide) (by decide)

/-- Claim C7: on the free tier the quota gate denies exactly when the
daily message count has reached `FREE_TIER_DAILY_LIMIT` (50); the
denial is HTTP 402 with the daily-limit detail string, a user-facing
status distinct from the 5xx range. -/
theorem C7_free_tier_daily_quota :
    ∀ daily monthly : Nat,
      (check_quota "free" daily monthly = QuotaCheck.allowed ↔
        daily < FREE_TIER_DAILY_LIMIT) ∧
      (FREE_TIER_DAILY_LIMIT ≤ daily →
        check_quota "free" daily monthly =
          QuotaCheck.denied 402
            "Daily limit reached (50 requests/day). Upgrade to continue.") ∧
      (402 : Nat) < 500 := by
  intro d m
  refine ⟨?_, fun h => ?_, by norm_num⟩
  · by_cases h : d ≥ 50
    · simp [check_quota, FREE_TIER_DAILY_LIMIT, h]
    · simp [check_quota, FREE_TIER_DAILY_LIMIT, h]
      omega
  · simp only [FREE_TIER_DAILY_LIMIT] at h
    simp [check_quota, h]

/-- Witness for C7: at the limit (50) the gate denies with the
daily-limit message; strictly below (49) it allows. -/
theorem C7_witness :
    check_quota "free" 50 0 =
      QuotaCheck.denied 402
        "Daily limit reached (50 requests/day). Upgrade to continue." ∧
    check_quota "free" 49 0 = QuotaCheck.allowed :=
  ⟨(C7_free_tier_daily_quota 50 0).2.1 (by decide),
   (C7_free_tier_daily_quota 49 0).1.mpr (by decide)⟩

/-- Claim C9: the `pro_plus` tier is never denied by the quota gate,
for arbitrary daily and monthly counts (in particular a monthly count
of 1,000,000): the endpoint has no count check for this tier. -/
theorem C9_pro_plus_unlimited :
    (∀ daily monthly : Nat, check_quota "pro_plus" daily monthly = QuotaCheck.allowed) ∧
    check_quota "pro_plus" 0 1000000 = QuotaCheck.allowed := by
  refine ⟨fun d m => ?_, by decide⟩
  simp [check_quota]

/-- Claim C10: a tier argument that does not normalize to one of
free/starter/pro/pro_plus — including `None` and strings that lowercase
to anything else — is served exactly the free-tier model list, both by
`get_available_models` and by `validate_model_access`. -/
theorem C10_unknown_tier_free_fallback :
    ∀ tier : Option String,
      (∀ s, tier = some s →
        pyToLower s ∉ ["free", "starter", "pro", "pro_plus"]) →
      get_available_models tier = FREE_MODELS ∧
      ∀ m : String, validate_model_access m tier = FREE_MODELS.contains m := by
  intro tier h
  have key : tierModels (normTier tier) = FREE_MODELS := by
    cases tier with
    | none => simp [normTier, tierModels]
    | some s =>
      by_cases he : s.isEmpty
      · simp [normTier, he, tierModels]
      · have hl := h s rfl
        have h1 : pyToLower s ≠ "free" := fun hx => hl (by rw [hx]; simp)
        have h2 : pyToLower s ≠ "starter" := fun hx => hl (by rw [hx]; simp)
        have h3 : pyToLower s ≠ "pro" := fun hx => hl (by rw [hx]; simp)
        have h4 : pyToLower s ≠ "pro_plus" := fun hx => hl (by rw [hx]; simp)
        simp [normTier, he, tierModels, h1, h2, h3, h4]
  exact ⟨by simp [get_available_models, key],
    fun m => by simp [validate_model_access, key]⟩

/-- Witness for C10 at the concrete unrecognized tier string GOLD. -/
theorem C10_witness :
    get_available_models (some "GOLD") = FREE_MODELS ∧
    validate_model_access "x-ai/grok-4-fast" (some "GOLD") =
      FREE_MODELS.contains "x-ai/grok-4-fast" := by
  have h := C10_unknown_tier_free_fallback (some "GOLD")
    (by intro s hs; injection hs with h; subst h; decide)
  exact ⟨h.1, h.2 "x-ai/grok-4-fast"⟩

/-- Claim C8: daily-reset idempotence of the usage lookup.
(1) A second resolution within the same calendar day is a no-op, so the
daily counters are never zeroed twice in one day.  (2) Resolving on the
day of the last reset and then once after a day boundary zeros the
counters exactly once, at the second call.  (3) The reset fires exactly
when the stored last-reset instant has a calendar date preceding the
current calendar date (stated for rows with a nonzero daily count).
(4) The in-memory revision in `models/state.py` implements the same
date-precedes condition. -/
theorem C8_daily_reset_idempotence :
    (∀ (row : SvcUsageRow) (now1 now2 : Datetime) (row1 : SvcUsageRow),
      calDate now1 = calDate now2 →
      svc_get_user_usage row now1 = .ok row1 →
      svc_get_user_usage row1 now2 = .ok row1) ∧
    (∀ (row : SvcUsageRow) (last now1 now2 : Datetime),
      row.last_reset_date = some (some last) →
      calDate last = calDate now1 →
      calDate now1 < calDate now2 →
      svc_get_user_usage row now1 = .ok row ∧
      svc_get_user_usage row now2 = .ok (resetRow row now2) ∧
      (resetRow row now2).daily_message_count = 0) ∧
    (∀ (row : SvcUsageRow) (last now : Datetime),
      row.last_reset_date = some (some last) →
      row.daily_message_count ≠ 0 →
      ((∃ r, svc_get_user_usage row now = .ok r ∧ r.daily_message_count = 0) ↔
        calDate last < calDate now)) ∧
    (∀ (u : MemUsage) (now : Datetime),
      mem_get_user_usage u now =
        if calDate u.last_reset_date < calDate now then
          { u with daily_message_count := 0, last_reset_date := now }
        else u) := by
  refine ⟨?_, ?_, ?_, ?_⟩
  · intro row n1 n2 row1 hdate h1
    cases hr : row.last_reset_date with
    | none =>
      rw [svc_eq_of_missing row n1 hr] at h1
      injection h1 with h1
      subst h1
      exact svc_eq_of_missing _ n2 hr
    | some ds =>
      cases ds with
      | none =>
        rw [svc_eq_of_bad row n1 hr] at h1
        exact Except.noConfusion h1
      | some last =>
        rw [svc_eq_of_some row n1 last hr] at h1
        by_cases hc : calDate last < calDate n1
        · rw [if_pos hc] at h1
          injection h1 with h1
          subst h1
          rw [svc_eq_of_some (resetRow row n1) n2 n1 rfl,
            if_neg (by omega)]
        · rw [if_neg hc] at h1
          injection h1 with h1
          subst h1
          rw [svc_eq_of_some _ n2 last hr, if_neg (by omega)]
  · intro row last n1 n2 hlr h1 h2
    refine ⟨?_, ?_, rfl⟩
    · rw [svc_eq_of_some row n1 last hlr, if_neg (by omega)]
    · rw [svc_eq_of_some row n2 last hlr, if_pos (by omega)]
  · intro row last now hlr hd
    constructor
    · rintro ⟨r, hr, hdaily⟩
      rw [svc_eq_of_some row now last hlr] at hr
      by_cases hc : calDate last < calDate now
      · exact hc
      · rw [if_neg hc] at hr
        injection hr with hr
        subst hr
        exact absurd hdaily hd
    · intro hc
      refine ⟨resetRow row now, ?_, rfl⟩
      rw [svc_eq_of_some row now last hlr, if_pos hc]
  · intro u now
    by_cases h : calDate u.last_reset_date < calDate now
    · rw [if_pos h, mem_get_user_usage,
        if_pos ((nextReset_le_iff u.last_reset_date now).mpr h)]
    · rw [if_neg h, mem_get_user_usage,
        if_neg (fun hx => h ((nextReset_le_iff u.last_reset_date now).mp hx))]

/-- Witness for C8 at concrete instants: last reset at 1000 (day 0),
first call at 20000 (still day 0, no zeroing), second at 90000 (day 1,
zeroing), a same-day repeat at 90005 is a no-op, and the in-memory
variant at day 1. -/
theorem C8_witness :
    (svc_get_user_usage svcRowA 20000 = .ok svcRowA ∧
      svc_get_user_usage svcRowA 90000 = .ok (resetRow svcRowA 90000) ∧
      (resetRow svcRowA 90000).daily_message_count = 0) ∧
    svc_get_user_usage (resetRow svcRowA 90000) 90005 = .ok (resetRow svcRowA 90000) ∧
    ((∃ r, svc_get_user_usage svcRowA 90000 = .ok r ∧ r.daily_message_count = 0) ↔
      calDate 1000 < calDate 90000) ∧
    mem_get_user_usage memA 90000 =
      if calDate memA.last_reset_date < calDate 90000 then
        { memA with daily_message_count := 0, last_reset_date := 90000 }
      else memA :=
  ⟨C8_daily_reset_idempotence.2.1 svcRowA 1000 20000 90000 rfl (by decide) (by decide),
   C8_daily_reset_idempotence.1 svcRowA 90000 90005 (resetRow svcRowA 90000)
     (by decide) (by rfl),
   C8_daily_reset_idempotence.2.2.1 svcRowA 1000 90000 rfl (by decide),
   C8_daily_reset_idempotence.2.2.2 memA 90000⟩

/-- Claim C1, counterexample: with an active SubscriptionRecord of tier
pro whose period_end (instant 100) is in the future of now (0) and a
UserRecord storing the differing tier starter, the resolver returns
tier free with is_paid false — not the subscription tier pro the claim
asserts: line 22 awaits the synchronous `db.get_user_by_auth0_id`, so
every call raises there and the top-level handler returns the default
snapshot before any tie-break logic can run. -/
theorem C1_counterexample :
    envTieBreak.getUser =
      .ok (some (UserRec.mk "u1" "a1" (some "starter") (some false) none)) ∧
    envTieBreak.getActiveSub =
      .ok (some (SubRec.mk (some "active") "pro" (some (some 100)))) ∧
    envTieBreak.now < 100 ∧
    (get_user_usage envTieBreak "a1").1.subscription_tier = "free" ∧
    (get_user_usage envTieBreak "a1").1.subscription_tier ≠ "pro" ∧
    (get_user_usage envTieBreak "a1").1.is_paid = false :=
  ⟨rfl, rfl, by decide, by decide, by decide, by decide⟩

/-- Claim C1 as amended: for every user with an active
SubscriptionRecord whose period_end is in the future and a UserRecord
whose stored tier differs from the subscription tier, resolution
returns the default snapshot — tier free, is_paid false.  Neither
record tier can win the tie-break, because resolution never gets past
line 22 (the await-on-synchronous TypeError fires on every call). -/
theorem C1_tie_break_amended (env : Env) (uid : String) (user : UserRec)
    (sub : SubRec) (d : Datetime)
    (_hU : env.getUser = .ok (some user))
    (_hS : env.getActiveSub = .ok (some sub))
    (_hA : sub.status = some "active")
    (_hE : sub.current_end = some (some d))
    (_hfut : env.now < d)
    (_hdiff : user.subscription_tier.getD "free" ≠ sub.tier) :
    (get_user_usage env uid).1.subscription_tier = "free" ∧
    (get_user_usage env uid).1.is_paid = false := by
  rw [get_user_usage_default]
  exact ⟨rfl, rfl⟩

/-- Witness for C1 as amended, at the concrete tie-break fixture. -/
theorem C1_witness :
    (get_user_usage envTieBreak "a1").1.subscription_tier = "free" ∧
    (get_user_usage envTieBreak "a1").1.is_paid = false :=
  C1_tie_break_amended envTieBreak "a1"
    (UserRec.mk "u1" "a1" (some "starter") (some false) none)
    (SubRec.mk (some "active") "pro" (some (some 100))) 100
    rfl rfl rfl rfl (by decide) (by decide)

/-- Claim C2: fail-soft resolution.  Every call of `get_user_usage`
raises internally — line 22 awaits the synchronous
`db.get_user_by_auth0_id`, so either the lookup raises (store
unreachable) or the `await` raises `TypeError` on its plain return —
and the top-level handler (lines 123-137) turns any exception into the
default snapshot: tier free, is_paid false, zero counters, with no
write-backs.  No exception reaches the caller: the model is a total
function over every store outcome, `.error` lookups included. -/
theorem C2_fail_soft :
    ∀ (env : Env) (uid : String),
      get_user_usage env uid = (defaultUsage uid env.now, []) ∧
      (get_user_usage env uid).1.subscription_tier = "free" ∧
      (get_user_usage env uid).1.is_paid = false ∧
      (get_user_usage env uid).1.prompt_count = 0 ∧
      (get_user_usage env uid).1.daily_message_count = 0 := by
  intro env uid
  rw [get_user_usage_default]
  exact ⟨rfl, rfl, rfl, rfl, rfl⟩

/-- Claim C3, counterexample: with an active SubscriptionRecord whose
period_end (instant -5) is at or before now (0), no `db.update_user`
write-back is issued — refuting the claimed self-healing demotion
write.  The demotion at line 77 is unreachable: line 22 raises first
on every call.  (The returned snapshot is tier free and is_paid false,
but via the fail-soft default, not via demotion.) -/
theorem C3_counterexample :
    envExpiredPlain.getActiveSub =
      .ok (some (SubRec.mk (some "active") "pro" (some (some (-5))))) ∧
    ((-5 : Int) ≤ envExpiredPlain.now) ∧
    (get_user_usage envExpiredPlain "a1").1.is_paid = false ∧
    (get_user_usage envExpiredPlain "a1").1.subscription_tier = "free" ∧
    (get_user_usage envExpiredPlain "a1").2 = [] :=
  ⟨rfl, by decide, by decide, by decide, by decide⟩

/-- Claim C3 as amended: for every user whose active SubscriptionRecord
has period_end at or before now, the returned snapshot has is_paid
false and tier free — as for every input, via the fail-soft default —
but no write-back is issued: the demotion write of line 77 never
executes, so there is no self-healing of the UserRecord. -/
theorem C3_expiry_no_writeback_amended (env : Env) (uid : String)
    (user : UserRec) (sub : SubRec) (d : Datetime)
    (_hU : env.getUser = .ok (some user))
    (_hS : env.getActiveSub = .ok (some sub))
    (_hA : sub.status = some "active")
    (_hE : sub.current_end = some (some d))
    (_hexp : d ≤ env.now) :
    (get_user_usage env uid).1.is_paid = false ∧
    (get_user_usage env uid).1.subscription_tier = "free" ∧
    (get_user_usage env uid).2 = [] := by
  rw [get_user_usage_default]
  exact ⟨rfl, rfl, rfl⟩

/-- Witness for C3 as amended, at the expired-subscription fixture. -/
theorem C3_witness :
    (get_user_usage envExpiredPlain "a1").1.is_paid = false ∧
    (get_user_usage envExpiredPlain "a1").1.subscription_tier = "free" ∧
    (get_user_usage envExpiredPlain "a1").2 = [] :=
  C3_expiry_no_writeback_amended envExpiredPlain "a1"
    (UserRec.mk "u1" "a1" (some "pro") (some false) none)
    (SubRec.mk (some "active") "pro" (some (some (-5)))) (-5)
    rfl rfl rfl rfl (by decide)

/-- Claim C4, counterexample: with UserRecord of is_paid true, tier
pro, expiry at instant -100 (in the past of now = 0) and no
subscriptions-table row, the returned snapshot is tier free and
is_paid false (consistent with the claim), but no write-back is
issued — refuting the claimed demotion write.  Line 22 raises before
this path can run; and independently, even past line 22, the backup
branch would crash at line 96 with UnboundLocalError, `timezone` being
a function-local bound only by the branch-local import at line 62. -/
theorem C4_counterexample :
    envProfileExpired.getUser =
      .ok (some (UserRec.mk "u1" "a1" (some "pro") (some true) (some (some (-100))))) ∧
    envProfileExpired.getActiveSub = .ok none ∧
    ((-100 : Int) ≤ envProfileExpired.now) ∧
    (get_user_usage envProfileExpired "a1").1.subscription_tier = "free" ∧
    (get_user_usage envProfileExpired "a1").1.is_paid = false ∧
    (get_user_usage envProfileExpired "a1").2 = [] :=
  ⟨rfl, rfl, by decide, by decide, by decide, by decide⟩

/-- Claim C4 as amended: for every user with a profile-only expired
subscription (UserRecord with is_paid true and an expiry at or before
now, no subscriptions-table row), resolution returns the default
snapshot — tier free, is_paid false — and issues no write-back: no
demotion of the UserRecord ever happens. -/
theorem C4_profile_expiry_amended (env : Env) (uid : String)
    (user : UserRec) (d : Datetime)
    (_hU : env.getUser = .ok (some user))
    (_hS : env.getActiveSub = .ok none)
    (_hpaid : user.is_paid = some true)
    (_hend : user.subscription_end_date = some (some d))
    (_hexp : d ≤ env.now) :
    (get_user_usage env uid).1.subscription_tier = "free" ∧
    (get_user_usage env uid).1.is_paid = false ∧
    (get_user_usage env uid).2 = [] := by
  rw [get_user_usage_default]
  exact ⟨rfl, rfl, rfl⟩

/-- Witness for C4 as amended, at the profile-only expired fixture. -/
theorem C4_witness :
    (get_user_usage envProfileExpired "a1").1.subscription_tier = "free" ∧
    (get_user_usage envProfileExpired "a1").1.is_paid = false ∧
    (get_user_usage envProfileExpired "a1").2 = [] :=
  C4_profile_expiry_amended envProfileExpired "a1"
    (UserRec.mk "u1" "a1" (some "pro") (some true) (some (some (-100))))
    (-100) rfl rfl rfl rfl (by decide)

end SAI
